import Mathlib

/-!
# Verification of the Account & Token Lifecycle Manager

Shallow embedding of the server in `src/server/index.js` of the
Ivory-Foundation-Group repository: the `clients`, `audit_logs` and `files`
tables become lists of records, and each HTTP handler becomes a pure
function from a store (plus the request inputs, the session's client id,
the freshly generated random token, and the current clock reading) to a
response together with the successor store.

External capabilities are modelled as follows:

* the bcrypt hash (`bcrypt.hash(pw, 10)` / `bcrypt.compare`) is an
  abstract injective stand-in `bcryptHash`;
* `crypto.randomBytes(32).toString('hex')` is an input parameter of the
  operations that call it;
* the SQLite storage engine keeps rows in insertion order; `SELECT ...
  WHERE` is `List.find?`, `UPDATE ... WHERE id` maps over the rows,
  `DELETE` filters, and the UNIQUE constraint on `clients.email` makes a
  duplicate `INSERT` fail with the engine's raw error message;
* `new Date(ms).toISOString()` and SQLite's `datetime('now')` are
  implemented for real (days-to-civil-date conversion), because the
  `/api/reset-password` query compares the two *strings* with SQLite's
  BINARY collation, i.e. byte-wise lexicographically;
* outgoing mail is fire-and-forget and absorbed, so it does not appear.
-/

deriving instance DecidableEq for Except

/-! ## Calendar and time-string formatting -/

/-- Convert a count of days since 1970-01-01 to a civil `(year, month, day)`
date in the proleptic Gregorian calendar (standard days-to-civil algorithm,
restricted to dates on or after the epoch). -/
def civilFromDays (z : Nat) : Nat × Nat × Nat :=
  let z' := z + 719468
  let era := z' / 146097
  let doe := z' % 146097
  let yoe := (doe - doe / 1460 + doe / 36524 - doe / 146096) / 365
  let y := yoe + era * 400
  let doy := doe - (365 * yoe + yoe / 4 - yoe / 100)
  let mp := (5 * doy + 2) / 153
  let d := doy - (153 * mp + 2) / 5 + 1
  let m := if mp < 10 then mp + 3 else mp - 9
  (if m ≤ 2 then y + 1 else y, m, d)

/-- Zero-pad a numeral to two digits. -/
def pad2 (n : Nat) : String :=
  if n < 10 then "0" ++ toString n else toString n

/-- Zero-pad a numeral to three digits. -/
def pad3 (n : Nat) : String :=
  if n < 10 then "00" ++ toString n
  else if n < 100 then "0" ++ toString n
  else toString n

/-- Zero-pad a numeral to four digits. -/
def pad4 (n : Nat) : String :=
  if n < 10 then "000" ++ toString n
  else if n < 100 then "00" ++ toString n
  else if n < 1000 then "0" ++ toString n
  else toString n

/-- JavaScript `new Date(ms).toISOString()` for an epoch-milliseconds value:
`YYYY-MM-DDTHH:MM:SS.sssZ`, with a `'T'` separator and a trailing `'Z'`. -/
def toISOString (ms : Nat) : String :=
  let s := ms / 1000
  let days := s / 86400
  let sod := s % 86400
  let ymd := civilFromDays days
  pad4 ymd.1 ++ "-" ++ pad2 ymd.2.1 ++ "-" ++ pad2 ymd.2.2 ++ "T" ++
    pad2 (sod / 3600) ++ ":" ++ pad2 (sod % 3600 / 60) ++ ":" ++
    pad2 (sod % 60) ++ "." ++ pad3 (ms % 1000) ++ "Z"

/-- SQLite `datetime('now')` for an epoch-milliseconds clock reading:
`YYYY-MM-DD HH:MM:SS`, with a space separator, second precision, no zone
suffix. -/
def sqliteDatetime (ms : Nat) : String :=
  let s := ms / 1000
  let days := s / 86400
  let sod := s % 86400
  let ymd := civilFromDays days
  pad4 ymd.1 ++ "-" ++ pad2 ymd.2.1 ++ "-" ++ pad2 ymd.2.2 ++ " " ++
    pad2 (sod / 3600) ++ ":" ++ pad2 (sod % 3600 / 60) ++ ":" ++
    pad2 (sod % 60)

/-- Lexicographic strict `<` on character lists, comparing codepoints. -/
def charListLtb : List Char → List Char → Bool
  | [], [] => false
  | [], _ :: _ => true
  | _ :: _, [] => false
  | a :: as, b :: bs =>
    if a.toNat < b.toNat then true
    else if b.toNat < a.toNat then false
    else charListLtb as bs

/-- SQLite's `>` on two TEXT values under the default BINARY collation:
byte-wise (here: codepoint-wise, all characters being ASCII) lexicographic
comparison. -/
def sqliteTextGt (a b : String) : Bool :=
  charListLtb b.data a.data

/-! ## Data model: the three tables and the store -/

/-- A row of the `clients` table. -/
structure Client where
  id : Nat
  email : String
  password_hash : String
  name : String
  is_admin : Bool
  is_verified : Bool
  verification_token : Option String
  reset_token : Option String
  reset_token_expires : Option String
deriving Repr, DecidableEq

/-- A row of the `audit_logs` table.  `timestamp` is the
`CURRENT_TIMESTAMP` default, modelled as a monotone tick counter. -/
structure AuditLog where
  id : Nat
  action : String
  user_id : Nat
  resource_type : String
  resource_id : Nat
  details : String
  timestamp : Nat
deriving Repr, DecidableEq

/-- A row of the `files` table. -/
structure FileRec where
  id : Nat
  filename : String
  originalname : String
  mimetype : String
  fpath : String
  uploaded_by : Nat
  uploaded_at : Nat
deriving Repr, DecidableEq

/-- The durable store: the three tables, their AUTOINCREMENT counters, and
the tick counter feeding `audit_logs.timestamp`. -/
structure Store where
  clients : List Client
  nextClientId : Nat
  audit_logs : List AuditLog
  nextAuditId : Nat
  files : List FileRec
  auditClock : Nat
deriving Repr, DecidableEq

/-- The empty store of a first startup (AUTOINCREMENT starts at 1). -/
def initStore : Store :=
  { clients := [], nextClientId := 1, audit_logs := [], nextAuditId := 1,
    files := [], auditClock := 0 }

/-- `SELECT ... FROM clients WHERE email = ?` (first matching row). -/
def findByEmail (s : Store) (email : String) : Option Client :=
  s.clients.find? (fun c => c.email == email)

/-- `SELECT ... FROM clients WHERE id = ?` (first matching row). -/
def findById (s : Store) (i : Nat) : Option Client :=
  s.clients.find? (fun c => c.id == i)

/-- `UPDATE clients SET ... WHERE id = ?`. -/
def updateClient (s : Store) (i : Nat) (f : Client → Client) : Store :=
  { s with clients := s.clients.map (fun c => if c.id == i then f c else c) }

/-- `INSERT INTO audit_logs (action, user_id, resource_type, resource_id,
details)` — `logAudit` in the source. -/
def logAudit (s : Store) (action : String) (userId : Nat)
    (rtype : String) (rid : Nat) (details : String) : Store :=
  { s with
    audit_logs := s.audit_logs ++
      [{ id := s.nextAuditId, action := action, user_id := userId,
         resource_type := rtype, resource_id := rid, details := details,
         timestamp := s.auditClock }],
    nextAuditId := s.nextAuditId + 1,
    auditClock := s.auditClock + 1 }

/-! ## External capabilities -/

/-- Abstract stand-in for the external bcrypt capability,
`bcrypt.hash(password, 10)`: injective in the password, never equal to a
plaintext-free constant.  The server only ever feeds its output to
`bcryptCompare`. -/
def bcryptHash (cost : Nat) (password : String) : String :=
  "$2b$" ++ toString cost ++ "$" ++ password

/-- `bcrypt.compare(password, hash)`. -/
def bcryptCompare (password hash : String) : Bool :=
  hash == bcryptHash 10 password

/-- The storage engine's raw error text for a violation of the UNIQUE
constraint on `clients.email`, as the `sqlite3` driver surfaces it in
`err.message`. -/
def sqliteUniqueEmailError : String :=
  "SQLITE_CONSTRAINT: UNIQUE constraint failed: clients.email"

/-! ## Responses -/

/-- An error response: HTTP status plus the `error` field of the JSON body
(or the plain-text body for the file routes). -/
structure ApiError where
  status : Nat
  msg : String
deriving Repr, DecidableEq

/-! ## Seeding at first startup (`db.serialize` seed block) -/

/-- The seed block: when `SELECT COUNT(1) FROM clients` is 0, insert the
default client and the default admin.  Both `INSERT`s name only `(email,
password_hash, name, is_admin)`, so `is_verified` takes its column default
`0` and `verification_token` is NULL. -/
def seedIfEmpty (s : Store) : Store :=
  if s.clients.length = 0 then
    { s with
      clients :=
        [{ id := s.nextClientId, email := "client@ivory.example",
           password_hash := bcryptHash 10 "ChangeMe123!",
           name := "Default Client", is_admin := false, is_verified := false,
           verification_token := none, reset_token := none,
           reset_token_expires := none },
         { id := s.nextClientId + 1, email := "admin@ivory.example",
           password_hash := bcryptHash 10 "AdminChangeMe!",
           name := "Administrator", is_admin := true, is_verified := false,
           verification_token := none, reset_token := none,
           reset_token_expires := none }],
      nextClientId := s.nextClientId + 2 }
  else s

/-! ## The operations (HTTP handlers) -/

/-- `POST /api/login` (the handler proper; the rate limiter sits in front
of it as an external middleware capability).  On success the handler binds
the session to the row id and answers `{ok, email, name}`; we return the
triple `(id, email, name)`. -/
def login (s : Store) (email password : String) :
    Except ApiError (Nat × String × String) :=
  if email = "" ∨ password = "" then
    .error ⟨400, "Email and password required"⟩
  else
    match findByEmail s email with
    | none => .error ⟨401, "Invalid credentials"⟩
    | some row =>
      if !row.is_verified then
        .error ⟨403, "Email not verified. Check your inbox for a verification link."⟩
      else if !bcryptCompare password row.password_hash then
        .error ⟨401, "Invalid credentials"⟩
      else
        .ok (row.id, row.email, row.name)

/-- Success payload of `POST /api/register`. -/
structure RegisterOk where
  id : Nat
  email : String
  message : String
deriving Repr, DecidableEq

/-- `POST /api/register`.  `verificationToken` stands for
`crypto.randomBytes(32).toString('hex')`.  A duplicate email trips the
UNIQUE constraint and the handler answers
`res.status(500).json({ error: err.message })` — the engine's raw text. -/
def register (s : Store) (email password : String) (name : Option String)
    (verificationToken : String) : Except ApiError RegisterOk × Store :=
  if email = "" ∨ password = "" then
    (.error ⟨400, "Email and password required"⟩, s)
  else if s.clients.any (fun c => c.email == email) then
    (.error ⟨500, sqliteUniqueEmailError⟩, s)
  else
    let nm := match name with
      | none => "Client"
      | some n => if n = "" then "Client" else n
    (.ok { id := s.nextClientId, email := email,
           message := "Registration successful. Please check your email to verify your account." },
     { s with
       clients := s.clients ++
         [{ id := s.nextClientId, email := email,
            password_hash := bcryptHash 10 password, name := nm,
            is_admin := false, is_verified := false,
            verification_token := some verificationToken,
            reset_token := none, reset_token_expires := none }],
       nextClientId := s.nextClientId + 1 })

/-- `POST /api/verify-email`. -/
def verifyEmail (s : Store) (token : String) :
    Except ApiError String × Store :=
  if token = "" then (.error ⟨400, "Token required"⟩, s)
  else
    match s.clients.find? (fun c => c.verification_token == some token) with
    | none => (.error ⟨400, "Invalid or expired token"⟩, s)
    | some row =>
      let s1 := updateClient s row.id
        (fun c => { c with is_verified := true, verification_token := none })
      let s2 := logAudit s1 "EMAIL_VERIFIED" row.id "client" row.id
        ("Email " ++ row.email ++ " verified")
      (.ok "Email verified successfully. You can now login.", s2)

/-- The anti-enumeration success message of `POST /api/request-password-reset`,
returned verbatim on both branches. -/
def resetRequestMessage : String :=
  "If that email exists in our system, a password reset link has been sent."

/-- `POST /api/request-password-reset`.  `resetToken` stands for
`crypto.randomBytes(32).toString('hex')`; `nowMs` is `Date.now()`.  The
expiry is written as `new Date(Date.now() + 1*60*60*1000).toISOString()`. -/
def requestPasswordReset (s : Store) (email : String) (resetToken : String)
    (nowMs : Nat) : Except ApiError String × Store :=
  if email = "" then (.error ⟨400, "Email required"⟩, s)
  else
    match findByEmail s email with
    | none => (.ok resetRequestMessage, s)
    | some row =>
      let expiresAt := toISOString (nowMs + 1 * 60 * 60 * 1000)
      let s1 := updateClient s row.id
        (fun c => { c with reset_token := some resetToken,
                           reset_token_expires := some expiresAt })
      let s2 := logAudit s1 "PASSWORD_RESET_REQUESTED" row.id "client" row.id
        ("Password reset requested for " ++ email)
      (.ok resetRequestMessage, s2)

/-- The row filter of the `/api/reset-password` lookup,
`WHERE reset_token = ? AND reset_token_expires > datetime("now")`:
an SQL comparison against NULL is not true, and the `>` on two TEXT
values is the BINARY-collation string comparison. -/
def resetTokenLive (c : Client) (token : String) (nowMs : Nat) : Bool :=
  c.reset_token == some token &&
    match c.reset_token_expires with
    | some e => sqliteTextGt e (sqliteDatetime nowMs)
    | none => false

/-- `POST /api/reset-password`. -/
def resetPassword (s : Store) (token password : String) (nowMs : Nat) :
    Except ApiError String × Store :=
  if token = "" ∨ password = "" then
    (.error ⟨400, "Token and password required"⟩, s)
  else
    match s.clients.find? (fun c => resetTokenLive c token nowMs) with
    | none => (.error ⟨400, "Invalid or expired token"⟩, s)
    | some row =>
      let s1 := updateClient s row.id
        (fun c => { c with password_hash := bcryptHash 10 password,
                           reset_token := none,
                           reset_token_expires := none })
      let s2 := logAudit s1 "PASSWORD_RESET_COMPLETED" row.id "client" row.id
        "Password successfully reset"
      (.ok "Password reset successfully. You can now login.", s2)

/-- `DELETE /api/users/:id`.  `sess` is `req.session.clientId`. -/
def deleteUser (s : Store) (sess : Option Nat) (targetId : Nat) :
    Except ApiError Unit × Store :=
  match sess with
  | none => (.error ⟨401, "Not authenticated"⟩, s)
  | some clientId =>
    match findById s clientId with
    | none => (.error ⟨403, "Admin only"⟩, s)
    | some row =>
      if !row.is_admin then (.error ⟨403, "Admin only"⟩, s)
      else if targetId = clientId then
        (.error ⟨400, "Cannot delete yourself"⟩, s)
      else
        match findById s targetId with
        | none => (.error ⟨404, "User not found"⟩, s)
        | some userRow =>
          let s1 := { s with clients := s.clients.filter (fun c => !(c.id == targetId)) }
          let s2 := logAudit s1 "USER_DELETED" clientId "client" targetId
            ("User " ++ userRow.email ++ " deleted")
          (.ok (), s2)

/-- `PATCH /api/users/:id` (toggle the target's admin flag). -/
def patchUser (s : Store) (sess : Option Nat) (targetId : Nat) :
    Except ApiError (Option Client) × Store :=
  match sess with
  | none => (.error ⟨401, "Not authenticated"⟩, s)
  | some clientId =>
    match findById s clientId with
    | none => (.error ⟨403, "Admin only"⟩, s)
    | some row =>
      if !row.is_admin then (.error ⟨403, "Admin only"⟩, s)
      else if targetId = clientId then
        (.error ⟨400, "Cannot change your own admin role"⟩, s)
      else
        match findById s targetId with
        | none => (.error ⟨404, "User not found"⟩, s)
        | some targetRow =>
          let newAdminStatus := !targetRow.is_admin
          let s1 := updateClient s targetId
            (fun c => { c with is_admin := newAdminStatus })
          let action := if newAdminStatus then "USER_PROMOTED" else "USER_DEMOTED"
          let detail := "User " ++ targetRow.email ++ " role changed to " ++
            (if newAdminStatus then "admin" else "client")
          let s2 := logAudit s1 action clientId "client" targetId detail
          (.ok (findById s1 targetId), s2)

/-- Insert into a list kept sorted by a numeric key, largest key first. -/
def insertDescBy (key : α → Nat) (x : α) : List α → List α
  | [] => [x]
  | y :: ys =>
    if key y ≤ key x then x :: y :: ys else y :: insertDescBy key x ys

/-- `ORDER BY <key> DESC`: sort largest key first (insertion sort). -/
def sortDescBy (key : α → Nat) : List α → List α
  | [] => []
  | x :: xs => insertDescBy key x (sortDescBy key xs)

/-- `GET /api/audit-logs` (`ORDER BY timestamp DESC LIMIT 100`, admin-gated,
read-only). -/
def auditLogs (s : Store) (sess : Option Nat) :
    Except ApiError (List AuditLog) × Store :=
  match sess with
  | none => (.error ⟨401, "Not authenticated"⟩, s)
  | some clientId =>
    match findById s clientId with
    | none => (.error ⟨403, "Admin only"⟩, s)
    | some row =>
      if !row.is_admin then (.error ⟨403, "Admin only"⟩, s)
      else (.ok ((sortDescBy AuditLog.timestamp s.audit_logs).take 100), s)

/-- `GET /api/files`: gated only on the presence of a session client id
(`ORDER BY uploaded_at DESC`), read-only. -/
def listFiles (s : Store) (sess : Option Nat) :
    Except ApiError (List FileRec) :=
  match sess with
  | none => .error ⟨401, "Not authenticated"⟩
  | some _ => .ok (sortDescBy FileRec.uploaded_at s.files)

/-- `GET /protected-files/:id`: gated only on the presence of a session
client id; on a hit the row is sent as the download. -/
def getProtectedFile (s : Store) (sess : Option Nat) (fid : Nat) :
    Except ApiError FileRec :=
  match sess with
  | none => .error ⟨401, "Not authenticated"⟩
  | some _ =>
    match s.files.find? (fun f => f.id == fid) with
    | none => .error ⟨404, "Not found"⟩
    | some row => .ok row

/-! ## Helper lemmas -/

/-- If `find?` returns `a` and the filter by the same predicate has exactly
one element, then `a` is the only element of the list satisfying the
predicate. -/
theorem find_filter_len_one_unique {α : Type} {p : α → Bool} {l : List α}
    {a : α} (hfind : l.find? p = some a)
    (hlen : (l.filter p).length = 1) :
    ∀ x ∈ l, p x = true → x = a := by
  have ha : a ∈ l.filter p :=
    List.mem_filter.mpr ⟨List.mem_of_find?_eq_some hfind, List.find?_some hfind⟩
  obtain ⟨b, hb⟩ := List.length_eq_one.mp hlen
  intro x hx hpx
  have hx' : x ∈ l.filter p := List.mem_filter.mpr ⟨hx, hpx⟩
  rw [hb, List.mem_singleton] at ha hx'
  rw [hx', ha]

/-- Membership in `insertDescBy`. -/
theorem mem_insertDescBy {α : Type} {key : α → Nat} {x y : α} {l : List α} :
    y ∈ insertDescBy key x l ↔ y = x ∨ y ∈ l := by
  induction l with
  | nil => simp [insertDescBy]
  | cons z zs ih =>
    by_cases h : key z ≤ key x
    · simp [insertDescBy, h]
    · simp only [insertDescBy, if_neg h, List.mem_cons, ih]
      tauto

/-- `insertDescBy` preserves decreasing-key sortedness. -/
theorem sorted_insertDescBy {α : Type} {key : α → Nat} {x : α} {l : List α}
    (h : List.Sorted (fun p q => key q ≤ key p) l) :
    List.Sorted (fun p q => key q ≤ key p) (insertDescBy key x l) := by
  induction l with
  | nil => simp [insertDescBy]
  | cons z zs ih =>
    rw [List.sorted_cons] at h
    by_cases hzx : key z ≤ key x
    · rw [insertDescBy, if_pos hzx, List.sorted_cons]
      refine ⟨?_, List.sorted_cons.mpr h⟩
      intro b hb
      rcases List.mem_cons.mp hb with hb | hb
      · rw [hb]; exact hzx
      · exact le_trans (h.1 b hb) hzx
    · rw [insertDescBy, if_neg hzx, List.sorted_cons]
      refine ⟨?_, ih h.2⟩
      intro b hb
      rcases mem_insertDescBy.mp hb with hb | hb
      · rw [hb]; exact le_of_not_le hzx
      · exact h.1 b hb

/-- `sortDescBy` yields a list sorted by decreasing key. -/
theorem sorted_sortDescBy {α : Type} (key : α → Nat) (l : List α) :
    List.Sorted (fun p q => key q ≤ key p) (sortDescBy key l) := by
  induction l with
  | nil => simp [sortDescBy]
  | cons x xs ih => exact sorted_insertDescBy ih

/-- `sortDescBy` does not invent elements. -/
theorem mem_sortDescBy {α : Type} {key : α → Nat} {l : List α} {x : α} :
    x ∈ sortDescBy key l ↔ x ∈ l := by
  induction l with
  | nil => simp [sortDescBy]
  | cons y ys ih =>
    rw [sortDescBy, mem_insertDescBy, List.mem_cons, ih]

/-! ## C1 -/

/-- **C1.**  The claim says ResetPassword rejects any matching token whose
expiry is in the past.  The code writes the expiry as an ISO-8601 string
with a `'T'` separator and has SQLite compare it as a string against
`datetime('now')`, which uses a space separator; since `'T' > ' '`, any
expiry on the *same UTC day* as the call compares as "in the future" even
when it is hours in the past.  Concretely: a reset is requested at epoch
0 so the stored expiry is `1970-01-01T01:00:00.000Z`; the reset is
completed at epoch 7 200 000 ms = `1970-01-01 02:00:00`, a full hour after
expiry, yet the lookup matches, the call succeeds, and the password hash
is replaced. -/
def c1Store : Store :=
  { clients :=
      [{ id := 1, email := "a@x.com", password_hash := bcryptHash 10 "OldPw1!",
         name := "A", is_admin := false, is_verified := true,
         verification_token := none, reset_token := none,
         reset_token_expires := none }],
    nextClientId := 2, audit_logs := [], nextAuditId := 1, files := [],
    auditClock := 0 }

/-- The store of `c1Store` after a reset is requested at epoch-ms 0: the
expiry written is `toISOString 3600000`. -/
def c1StoreAfterRequest : Store :=
  (requestPasswordReset c1Store "a@x.com" "tok" 0).2

theorem resetPassword_accepts_expired_token_same_day :
    3600000 < 7200000 ∧
    toISOString 3600000 = "1970-01-01T01:00:00.000Z" ∧
    sqliteDatetime 7200000 = "1970-01-01 02:00:00" ∧
    sqliteTextGt "1970-01-01T01:00:00.000Z" "1970-01-01 02:00:00" = true ∧
    (resetPassword c1StoreAfterRequest "tok" "NewPw1!" 7200000).1 =
      Except.ok "Password reset successfully. You can now login." ∧
    ((findById (resetPassword c1StoreAfterRequest "tok" "NewPw1!" 7200000).2 1).map
        Client.password_hash) = some (bcryptHash 10 "NewPw1!") := by
  decide

/-! ## C2 -/

/-- **C2.**  The claim says first-startup seeding creates one client and
one admin account, both with `verified=true` so both can authenticate
immediately.  The seed `INSERT`s name only `(email, password_hash, name,
is_admin)`, so `is_verified` takes its column default `0`: exactly two
accounts are created, one client and one admin, but both are *unverified*
(and hold no verification token), so logging in with the seeded
credentials — which the repository README says is how to log in on first
run — fails with the 403 "Email not verified" error. -/
theorem seeded_accounts_are_unverified :
    (seedIfEmpty initStore).clients.length = 2 ∧
    ((seedIfEmpty initStore).clients.filter (fun c => c.is_admin)).length = 1 ∧
    ((seedIfEmpty initStore).clients.filter (fun c => !c.is_admin)).length = 1 ∧
    (seedIfEmpty initStore).clients.all (fun c => !c.is_verified) = true ∧
    login (seedIfEmpty initStore) "client@ivory.example" "ChangeMe123!" =
      Except.error ⟨403, "Email not verified. Check your inbox for a verification link."⟩ ∧
    login (seedIfEmpty initStore) "admin@ivory.example" "AdminChangeMe!" =
      Except.error ⟨403, "Email not verified. Check your inbox for a verification link."⟩ := by
  decide

/-! ## C3 -/

def c3Store : Store :=
  { clients :=
      [{ id := 1, email := "a@x.com", password_hash := bcryptHash 10 "Pw123!",
         name := "A", is_admin := false, is_verified := true,
         verification_token := none, reset_token := none,
         reset_token_expires := none }],
    nextClientId := 2, audit_logs := [], nextAuditId := 1, files := [],
    auditClock := 0 }

/-- **C3, counterexample.**  The claim says a duplicate registration fails
with a ConflictError carrying a caller-safe message, the raw storage error
text never reaching the caller.  In the code the handler answers
`res.status(500).json({ error: err.message })`: registering `a@x.com` a
second time yields HTTP 500 whose error field is exactly the storage
engine's raw UNIQUE-constraint message — not a Conflict status, and not a
caller-safe message. -/
theorem register_duplicate_leaks_raw_store_error :
    (register c3Store "a@x.com" "Pw456!" none "vtok2").1 =
      Except.error ⟨500, sqliteUniqueEmailError⟩ ∧
    (register c3Store "a@x.com" "Pw456!" none "vtok2").2 = c3Store ∧
    ((register c3Store "a@x.com" "Pw456!" none "vtok2").2.clients.filter
        (fun c => c.email == "a@x.com")).length = 1 := by
  decide

/-- **C3, amended.**  For every email already held by exactly one account,
a second Register call with that email fails — but with the internal
storage error surfaced verbatim (status 500 and the engine's raw
UNIQUE-constraint text as the message), not with a caller-safe
ConflictError; the store is left unchanged, so it still holds exactly one
account record for that email. -/
theorem register_duplicate_fails_store_unchanged
    (s : Store) (email pw : String) (nm : Option String) (vtok : String)
    (hemail : email ≠ "") (hpw : pw ≠ "")
    (hone : (s.clients.filter (fun c => c.email == email)).length = 1) :
    (register s email pw nm vtok).1 = Except.error ⟨500, sqliteUniqueEmailError⟩ ∧
    (register s email pw nm vtok).2 = s ∧
    ((register s email pw nm vtok).2.clients.filter
        (fun c => c.email == email)).length = 1 := by
  have hany : s.clients.any (fun c => c.email == email) = true := by
    obtain ⟨b, hb⟩ := List.length_eq_one.mp hone
    have hbmem : b ∈ s.clients.filter (fun c => c.email == email) := by
      rw [hb]; exact List.mem_singleton.mpr rfl
    rcases List.mem_filter.mp hbmem with ⟨hmem, hpb⟩
    exact List.any_eq_true.mpr ⟨b, hmem, hpb⟩
  have hcond : ¬(email = "" ∨ pw = "") := by
    rintro (h | h)
    · exact hemail h
    · exact hpw h
  have heq : register s email pw nm vtok =
      (Except.error ⟨500, sqliteUniqueEmailError⟩, s) := by
    rw [register.eq_def, if_neg hcond, if_pos hany]
  exact ⟨by rw [heq], by rw [heq], by rw [heq]; exact hone⟩

/-- **C3, witness.** -/
theorem register_duplicate_fails_store_unchanged_witness :
    (register c3Store "a@x.com" "Pw456!" none "v2").1 =
      Except.error ⟨500, sqliteUniqueEmailError⟩ ∧
    (register c3Store "a@x.com" "Pw456!" none "v2").2 = c3Store ∧
    ((register c3Store "a@x.com" "Pw456!" none "v2").2.clients.filter
        (fun c => c.email == "a@x.com")).length = 1 :=
  register_duplicate_fails_store_unchanged c3Store "a@x.com" "Pw456!" none "v2"
    (by decide) (by decide) (by decide)

/-! ## C4 -/

/-- **C4.**  For every pair of RequestPasswordReset inputs — one an email
bound to an existing account, the other bound to no account — the two
success responses are identical (the literal anti-enumeration message),
and in the non-existent case the store is completely unchanged: no token
mutation and no new audit entry. -/
theorem requestPasswordReset_anti_enumeration
    (s : Store) (e1 e2 tok1 tok2 : String) (n1 n2 : Nat)
    (h1 : e1 ≠ "") (h2 : e2 ≠ "")
    (hex : (findByEmail s e1).isSome = true)
    (hnx : findByEmail s e2 = none) :
    (requestPasswordReset s e1 tok1 n1).1 = (requestPasswordReset s e2 tok2 n2).1 ∧
    (requestPasswordReset s e1 tok1 n1).1 = Except.ok resetRequestMessage ∧
    (requestPasswordReset s e2 tok2 n2).2 = s ∧
    (requestPasswordReset s e2 tok2 n2).2.audit_logs = s.audit_logs := by
  obtain ⟨a, ha⟩ := Option.isSome_iff_exists.mp hex
  have heq1 : (requestPasswordReset s e1 tok1 n1).1 = Except.ok resetRequestMessage := by
    rw [requestPasswordReset.eq_def, if_neg h1, ha]
  have heq2 : requestPasswordReset s e2 tok2 n2 = (Except.ok resetRequestMessage, s) := by
    rw [requestPasswordReset.eq_def, if_neg h2, hnx]
  exact ⟨by rw [heq1, heq2], heq1, by rw [heq2], by rw [heq2]⟩

def c4Store : Store :=
  { clients :=
      [{ id := 1, email := "a@x.com", password_hash := bcryptHash 10 "Pw123!",
         name := "A", is_admin := false, is_verified := true,
         verification_token := none, reset_token := none,
         reset_token_expires := none }],
    nextClientId := 2, audit_logs := [], nextAuditId := 1, files := [],
    auditClock := 0 }

/-- **C4, witness.** -/
theorem requestPasswordReset_anti_enumeration_witness :
    (requestPasswordReset c4Store "a@x.com" "t1" 5).1 =
      (requestPasswordReset c4Store "ghost@x.com" "t2" 9).1 ∧
    (requestPasswordReset c4Store "a@x.com" "t1" 5).1 = Except.ok resetRequestMessage ∧
    (requestPasswordReset c4Store "ghost@x.com" "t2" 9).2 = c4Store ∧
    (requestPasswordReset c4Store "ghost@x.com" "t2" 9).2.audit_logs = c4Store.audit_logs :=
  requestPasswordReset_anti_enumeration c4Store "a@x.com" "ghost@x.com" "t1" "t2" 5 9
    (by decide) (by decide) (by decide) (by decide)

/-! ## C6 -/

/-- **C6.**  For every account with `verified=false`, Login with that
account's email fails with the 403 Forbidden "email not verified" error —
never with the generic 401 "Invalid credentials" — whatever the supplied
password (an empty password trips the 400 missing-field validation
instead, still not the generic invalid-credentials error). -/
theorem login_unverified_fails_forbidden
    (s : Store) (email password : String) (a : Client)
    (hemail : email ≠ "")
    (hfind : findByEmail s email = some a)
    (hunv : a.is_verified = false) :
    (password ≠ "" → login s email password =
      Except.error ⟨403, "Email not verified. Check your inbox for a verification link."⟩) ∧
    ∀ e, login s email password = Except.error e → e.msg ≠ "Invalid credentials" := by
  constructor
  · intro hpw
    have hcond : ¬(email = "" ∨ password = "") := by
      rintro (h | h)
      · exact hemail h
      · exact hpw h
    rw [login.eq_def, if_neg hcond, hfind]
    simp [hunv]
  · intro e he
    by_cases hpw : password = ""
    · have : login s email password = Except.error ⟨400, "Email and password required"⟩ := by
        rw [login.eq_def, if_pos (Or.inr hpw)]
      rw [this] at he
      cases he
      decide
    · have hcond : ¬(email = "" ∨ password = "") := by
        rintro (h | h)
        · exact hemail h
        · exact hpw h
      have : login s email password =
          Except.error ⟨403, "Email not verified. Check your inbox for a verification link."⟩ := by
        rw [login.eq_def, if_neg hcond, hfind]
        simp [hunv]
      rw [this] at he
      cases he
      decide

def c6Store : Store :=
  { clients :=
      [{ id := 1, email := "u@x.com", password_hash := bcryptHash 10 "Pw123!",
         name := "U", is_admin := false, is_verified := false,
         verification_token := some "vtok", reset_token := none,
         reset_token_expires := none }],
    nextClientId := 2, audit_logs := [], nextAuditId := 1, files := [],
    auditClock := 0 }

/-- **C6, witness**: the correct password included. -/
theorem login_unverified_fails_forbidden_witness :
    login c6Store "u@x.com" "Pw123!" =
      Except.error ⟨403, "Email not verified. Check your inbox for a verification link."⟩ :=
  (login_unverified_fails_forbidden c6Store "u@x.com" "Pw123!"
      (Client.mk 1 "u@x.com" (bcryptHash 10 "Pw123!") "U" false false
        (some "vtok") none none)
      (by decide) (by decide) (by decide)).1 (by decide)

/-! ## C7 -/

/-- **C7.**  For every authenticated admin caller, DeleteUser and
PromoteOrDemote with target id equal to the caller's own id fail with the
400 self-target validation error — whichever way the flag would have been
toggled — and the store (in particular the caller's account record) is
left completely unchanged. -/
theorem self_target_admin_ops_fail
    (s : Store) (cid : Nat) (a : Client)
    (hfind : findById s cid = some a)
    (hadmin : a.is_admin = true) :
    deleteUser s (some cid) cid = (Except.error ⟨400, "Cannot delete yourself"⟩, s) ∧
    patchUser s (some cid) cid =
      (Except.error ⟨400, "Cannot change your own admin role"⟩, s) := by
  constructor
  · rw [deleteUser.eq_def]
    simp [hfind, hadmin]
  · rw [patchUser.eq_def]
    simp [hfind, hadmin]

/-- **C7, witness**: the seeded admin (id 2) targeting itself. -/
theorem self_target_admin_ops_fail_witness :
    deleteUser (seedIfEmpty initStore) (some 2) 2 =
      (Except.error ⟨400, "Cannot delete yourself"⟩, seedIfEmpty initStore) ∧
    patchUser (seedIfEmpty initStore) (some 2) 2 =
      (Except.error ⟨400, "Cannot change your own admin role"⟩, seedIfEmpty initStore) :=
  self_target_admin_ops_fail (seedIfEmpty initStore) 2
    (Client.mk 2 "admin@ivory.example" (bcryptHash 10 "AdminChangeMe!")
      "Administrator" true false none none none)
    (by decide) (by decide)

/-! ## C5 -/

/-- **C5.**  For an account holding a verification token (unique to it, as
tokens are 256-bit random capabilities), VerifyEmail with that token
succeeds, sets `verified=true` and clears the token on that account, and
appends exactly one EMAIL_VERIFIED audit entry; a second VerifyEmail call
with the same token then fails with the 400 invalid-token error and
performs no mutation. -/
theorem verifyEmail_single_use
    (s : Store) (tok : String) (a : Client)
    (htok : tok ≠ "")
    (hfind : s.clients.find? (fun c => c.verification_token == some tok) = some a)
    (huniq : (s.clients.filter (fun c => c.verification_token == some tok)).length = 1) :
    (verifyEmail s tok).1 = Except.ok "Email verified successfully. You can now login." ∧
    { a with is_verified := true, verification_token := none } ∈
      (verifyEmail s tok).2.clients ∧
    (verifyEmail s tok).2.audit_logs = s.audit_logs ++
      [{ id := s.nextAuditId, action := "EMAIL_VERIFIED", user_id := a.id,
         resource_type := "client", resource_id := a.id,
         details := "Email " ++ a.email ++ " verified",
         timestamp := s.auditClock }] ∧
    verifyEmail (verifyEmail s tok).2 tok =
      (Except.error ⟨400, "Invalid or expired token"⟩, (verifyEmail s tok).2) := by
  have heval : verifyEmail s tok =
      (Except.ok "Email verified successfully. You can now login.",
       logAudit (updateClient s a.id
           (fun c => { c with is_verified := true, verification_token := none }))
         "EMAIL_VERIFIED" a.id "client" a.id ("Email " ++ a.email ++ " verified")) := by
    rw [verifyEmail.eq_def, if_neg htok, hfind]
  have hclients : (verifyEmail s tok).2.clients =
      s.clients.map (fun c => if c.id == a.id then
        { c with is_verified := true, verification_token := none } else c) := by
    rw [heval]
    rfl
  refine ⟨by rw [heval], ?_, ?_, ?_⟩
  · rw [hclients]
    have hmem := List.mem_map_of_mem
      (fun c => if c.id == a.id then
        { c with is_verified := true, verification_token := none } else c)
      (List.mem_of_find?_eq_some hfind)
    simpa using hmem
  · rw [heval]
    rfl
  · have hnone : (verifyEmail s tok).2.clients.find?
        (fun c => c.verification_token == some tok) = none := by
      rw [hclients]
      apply List.find?_eq_none.mpr
      intro x hx hpx
      obtain ⟨y, hy, hgy⟩ := List.mem_map.mp hx
      by_cases hid : (y.id == a.id) = true
      · rw [if_pos hid] at hgy
        rw [← hgy] at hpx
        simp at hpx
      · rw [if_neg hid] at hgy
        subst hgy
        have hya := find_filter_len_one_unique hfind huniq y hy hpx
        apply hid
        rw [hya]
        simp
    rw [verifyEmail.eq_def, if_neg htok, hnone]

def c5Store : Store :=
  { clients :=
      [{ id := 1, email := "u@x.com", password_hash := bcryptHash 10 "Pw123!",
         name := "U", is_admin := false, is_verified := false,
         verification_token := some "vtok", reset_token := none,
         reset_token_expires := none }],
    nextClientId := 2, audit_logs := [], nextAuditId := 1, files := [],
    auditClock := 0 }

/-- **C5, witness.** -/
theorem verifyEmail_single_use_witness :
    (verifyEmail c5Store "vtok").1 =
      Except.ok "Email verified successfully. You can now login." ∧
    verifyEmail (verifyEmail c5Store "vtok").2 "vtok" =
      (Except.error ⟨400, "Invalid or expired token"⟩, (verifyEmail c5Store "vtok").2) :=
  ⟨(verifyEmail_single_use c5Store "vtok"
      (Client.mk 1 "u@x.com" (bcryptHash 10 "Pw123!") "U" false false
        (some "vtok") none none)
      (by decide) (by decide) (by decide)).1,
   (verifyEmail_single_use c5Store "vtok"
      (Client.mk 1 "u@x.com" (bcryptHash 10 "Pw123!") "U" false false
        (some "vtok") none none)
      (by decide) (by decide) (by decide)).2.2.2⟩

/-! ## C8 -/

/-- **C8.**  ListAuditLogs called by an authenticated admin returns at most
100 entries, ordered by timestamp newest-first, all drawn from the store's
audit table, and mutates nothing; an unauthenticated caller gets 401 and
an authenticated non-admin gets 403, also without mutation. -/
theorem auditLogs_admin_gated
    (s : Store) (cid cid2 : Nat) (a b : Client)
    (hfind : findById s cid = some a) (hadmin : a.is_admin = true)
    (hfind2 : findById s cid2 = some b) (hnon : b.is_admin = false) :
    auditLogs s (some cid) =
      (Except.ok ((sortDescBy AuditLog.timestamp s.audit_logs).take 100), s) ∧
    ((sortDescBy AuditLog.timestamp s.audit_logs).take 100).length ≤ 100 ∧
    List.Sorted (fun x y => y.timestamp ≤ x.timestamp)
      ((sortDescBy AuditLog.timestamp s.audit_logs).take 100) ∧
    (∀ e ∈ (sortDescBy AuditLog.timestamp s.audit_logs).take 100,
      e ∈ s.audit_logs) ∧
    auditLogs s none = (Except.error ⟨401, "Not authenticated"⟩, s) ∧
    auditLogs s (some cid2) = (Except.error ⟨403, "Admin only"⟩, s) := by
  refine ⟨?_, ?_, ?_, ?_, ?_, ?_⟩
  · rw [auditLogs.eq_def]
    simp [hfind, hadmin]
  · rw [List.length_take]
    exact inf_le_left
  · exact List.Pairwise.sublist (List.take_sublist _ _) (sorted_sortDescBy _ _)
  · intro e he
    exact mem_sortDescBy.mp (List.take_subset _ _ he)
  · rw [auditLogs.eq_def]
  · rw [auditLogs.eq_def]
    simp [hfind2, hnon]

/-- **C8, witness**: the seeded store, admin caller id 2, non-admin id 1. -/
theorem auditLogs_admin_gated_witness :
    auditLogs (seedIfEmpty initStore) (some 2) =
      (Except.ok ((sortDescBy AuditLog.timestamp
          (seedIfEmpty initStore).audit_logs).take 100), seedIfEmpty initStore) ∧
    auditLogs (seedIfEmpty initStore) none =
      (Except.error ⟨401, "Not authenticated"⟩, seedIfEmpty initStore) ∧
    auditLogs (seedIfEmpty initStore) (some 1) =
      (Except.error ⟨403, "Admin only"⟩, seedIfEmpty initStore) :=
  ⟨(auditLogs_admin_gated (seedIfEmpty initStore) 2 1
      (Client.mk 2 "admin@ivory.example" (bcryptHash 10 "AdminChangeMe!")
        "Administrator" true false none none none)
      (Client.mk 1 "client@ivory.example" (bcryptHash 10 "ChangeMe123!")
        "Default Client" false false none none none)
      (by decide) (by decide) (by decide) (by decide)).1,
   (auditLogs_admin_gated (seedIfEmpty initStore) 2 1
      (Client.mk 2 "admin@ivory.example" (bcryptHash 10 "AdminChangeMe!")
        "Administrator" true false none none none)
      (Client.mk 1 "client@ivory.example" (bcryptHash 10 "ChangeMe123!")
        "Default Client" false false none none none)
      (by decide) (by decide) (by decide) (by decide)).2.2.2.2.1,
   (auditLogs_admin_gated (seedIfEmpty initStore) 2 1
      (Client.mk 2 "admin@ivory.example" (bcryptHash 10 "AdminChangeMe!")
        "Administrator" true false none none none)
      (Client.mk 1 "client@ivory.example" (bcryptHash 10 "ChangeMe123!")
        "Default Client" false false none none none)
      (by decide) (by decide) (by decide) (by decide)).2.2.2.2.2⟩

/-! ## C9 -/

/-- **C9** (frame property).  A successful ResetPassword rewrites only the
matched account's password hash, reset token and reset-token expiry: every
other account is untouched, and on every account of the resulting store
the email, name, admin flag, verified flag and verification token are
those of an account of the original store.  In particular the reset does
not verify an unverified account: if the matched account was unverified
(and is the one its email looks up), Login with its email still fails 403
afterwards, whatever password is supplied. -/
theorem resetPassword_frame
    (s : Store) (token pw : String) (nowMs : Nat) (a : Client)
    (htok : token ≠ "") (hpw : pw ≠ "")
    (hfind : s.clients.find? (fun c => resetTokenLive c token nowMs) = some a) :
    (resetPassword s token pw nowMs).1 =
      Except.ok "Password reset successfully. You can now login." ∧
    (resetPassword s token pw nowMs).2.clients =
      s.clients.map (fun c => if c.id == a.id then
        { c with password_hash := bcryptHash 10 pw, reset_token := none,
                 reset_token_expires := none } else c) ∧
    (∀ c ∈ s.clients, (c.id == a.id) = false →
      c ∈ (resetPassword s token pw nowMs).2.clients) ∧
    (∀ c ∈ (resetPassword s token pw nowMs).2.clients, ∃ c0 ∈ s.clients,
      c.email = c0.email ∧ c.name = c0.name ∧ c.is_admin = c0.is_admin ∧
      c.is_verified = c0.is_verified ∧
      c.verification_token = c0.verification_token) ∧
    (a.is_verified = false → a.email ≠ "" → findByEmail s a.email = some a →
      ∀ pw2, pw2 ≠ "" →
        login (resetPassword s token pw nowMs).2 a.email pw2 =
          Except.error ⟨403, "Email not verified. Check your inbox for a verification link."⟩) := by
  have hcond : ¬(token = "" ∨ pw = "") := by
    rintro (h | h)
    · exact htok h
    · exact hpw h
  have heval : resetPassword s token pw nowMs =
      (Except.ok "Password reset successfully. You can now login.",
       logAudit (updateClient s a.id
           (fun c => { c with password_hash := bcryptHash 10 pw,
                              reset_token := none,
                              reset_token_expires := none }))
         "PASSWORD_RESET_COMPLETED" a.id "client" a.id
         "Password successfully reset") := by
    rw [resetPassword.eq_def, if_neg hcond, hfind]
  have hclients : (resetPassword s token pw nowMs).2.clients =
      s.clients.map (fun c => if c.id == a.id then
        { c with password_hash := bcryptHash 10 pw, reset_token := none,
                 reset_token_expires := none } else c) := by
    rw [heval]
    rfl
  refine ⟨by rw [heval], hclients, ?_, ?_, ?_⟩
  · intro c hc hne
    rw [hclients]
    have hmem := List.mem_map_of_mem
      (fun c => if c.id == a.id then
        { c with password_hash := bcryptHash 10 pw, reset_token := none,
                 reset_token_expires := none } else c) hc
    simpa [hne] using hmem
  · intro c hc
    rw [hclients] at hc
    obtain ⟨y, hy, hgy⟩ := List.mem_map.mp hc
    by_cases hid : (y.id == a.id) = true
    · rw [if_pos hid] at hgy
      subst hgy
      exact ⟨y, hy, rfl, rfl, rfl, rfl, rfl⟩
    · rw [if_neg hid] at hgy
      subst hgy
      exact ⟨y, hy, rfl, rfl, rfl, rfl, rfl⟩
  · intro hunv hne hbyemail pw2 hpw2
    have hfe : findByEmail (resetPassword s token pw nowMs).2 a.email =
        some { a with password_hash := bcryptHash 10 pw, reset_token := none,
                      reset_token_expires := none } := by
      rw [findByEmail, hclients, List.find?_map]
      have hcomp : ((fun c : Client => c.email == a.email) ∘
          (fun c => if c.id == a.id then
            { c with password_hash := bcryptHash 10 pw, reset_token := none,
                     reset_token_expires := none } else c)) =
          (fun c : Client => c.email == a.email) := by
        funext c
        simp only [Function.comp_apply]
        split
        · rfl
        · rfl
      rw [hcomp]
      rw [findByEmail] at hbyemail
      rw [hbyemail]
      simp
    have hcond2 : ¬(a.email = "" ∨ pw2 = "") := by
      rintro (h | h)
      · exact hne h
      · exact hpw2 h
    rw [login.eq_def, if_neg hcond2, hfe]
    simp [hunv]

/-- **C9, witness**: completing the reset of `c1Store`'s account half an
hour after the request succeeds. -/
theorem resetPassword_frame_witness :
    (resetPassword c1StoreAfterRequest "tok" "NewPw9!" 1800000).1 =
      Except.ok "Password reset successfully. You can now login." :=
  (resetPassword_frame c1StoreAfterRequest "tok" "NewPw9!" 1800000
    (Client.mk 1 "a@x.com" (bcryptHash 10 "OldPw1!") "A" false true none
      (some "tok") (some (toISOString 3600000)))
    (by decide) (by decide) (by decide)).1

/-! ## C10 -/

/-- **C10.**  The file-listing and protected-file-download handlers check
only that the session carries a client id, not that the account still
exists: for a session bound to an id absent from the clients table, both
operations still succeed (the download whenever the file record exists)
instead of failing with an authentication error. -/
theorem stale_session_still_served
    (s : Store) (cid : Nat)
    (_hdead : findById s cid = none) :
    listFiles s (some cid) =
      Except.ok (sortDescBy FileRec.uploaded_at s.files) ∧
    (∀ fid f, s.files.find? (fun x => x.id == fid) = some f →
      getProtectedFile s (some cid) fid = Except.ok f) := by
  constructor
  · rw [listFiles.eq_def]
  · intro fid f hf
    rw [getProtectedFile.eq_def, hf]

def c10File : FileRec :=
  { id := 1, filename := "123-spec.pdf", originalname := "spec.pdf",
    mimetype := "application/pdf", fpath := "uploads/123-spec.pdf",
    uploaded_by := 2, uploaded_at := 5 }

def c10Store : Store :=
  { clients := [], nextClientId := 1, audit_logs := [], nextAuditId := 1,
    files := [c10File], auditClock := 0 }

/-- **C10, witness**: session id 7 is bound to no account, yet both reads
succeed. -/
theorem stale_session_still_served_witness :
    listFiles c10Store (some 7) =
      Except.ok (sortDescBy FileRec.uploaded_at c10Store.files) ∧
    getProtectedFile c10Store (some 7) 1 = Except.ok c10File :=
  ⟨(stale_session_still_served c10Store 7 (by decide)).1,
   (stale_session_still_served c10Store 7 (by decide)).2 1 c10File (by decide)⟩
